import Mathlib

/-!
Shallow embedding of `src/client/components/TodoList.tsx`, the single source
file of the repository: a todo-list view component over three remote calls
(todo.getAll, todoStatus.update, todo.delete) with a local status filter.
-/

namespace TodoApp

/-- Status enumeration of a todo, from
`type TodoStatus = 'completed' | 'pending'` (TodoList.tsx line 69). -/
inductive TodoStatus where
  | completed
  | pending
deriving DecidableEq, Repr

/-- Value of the component's `selectedStatus` view-state, of TypeScript type
`TodoStatus | 'all'` (line 72). -/
inductive SelectedStatus where
  | status (s : TodoStatus)
  | all
deriving DecidableEq, Repr

/-- Todo entity as the component consumes it: integer identifier, text body,
status (fields `todo.id`, `todo.body`, `todo.status` used in the markup). -/
structure Todo where
  id : Int
  body : String
  status : TodoStatus
deriving DecidableEq, Repr

/-- Remote procedure calls the component can issue through the `api` client:
`todo.getAll`, `todoStatus.update`, `todo.delete`. -/
inductive RemoteCall where
  | getAll (statuses : List TodoStatus)
  | todoStatusUpdate (todoId : Int) (status : TodoStatus)
  | todoDelete (id : Int)
deriving DecidableEq, Repr

/-- Statuses argument of `api.todo.getAll.useQuery` (lines 76-79):
`selectedStatus === 'all' ? ['completed', 'pending'] : [selectedStatus]`. -/
def queryStatuses : SelectedStatus → List TodoStatus
  | SelectedStatus.all => [TodoStatus.completed, TodoStatus.pending]
  | SelectedStatus.status s => [s]

/-- Query the component issues on render (lines 76-79). -/
def renderQuery (selectedStatus : SelectedStatus) : RemoteCall :=
  RemoteCall.getAll (queryStatuses selectedStatus)

/-- `handleStatusChange` (lines 93-98): calls `updateTodoStatus` with
`status: currentStatus === 'pending' ? 'completed' : 'pending'`. -/
def handleStatusChange (todoId : Int) (currentStatus : TodoStatus) : RemoteCall :=
  RemoteCall.todoStatusUpdate todoId
    (if currentStatus = TodoStatus.pending then TodoStatus.completed else TodoStatus.pending)

/-- `handleDelete` (lines 100-104): calls `deleteTodo` with `id: todoId`. -/
def handleDelete (todoId : Int) : RemoteCall :=
  RemoteCall.todoDelete todoId

/-- Status ternary inside `handleStatusChange` (line 96), factored as a
function on the status enumeration. -/
def flipStatus (currentStatus : TodoStatus) : TodoStatus :=
  if currentStatus = TodoStatus.pending then TodoStatus.completed else TodoStatus.pending

/-- Local component state: the component's only `useState` is the selected
filter (lines 72-74).  The fetched `todos` come from the query cache
(`const { data: todos = [] } = api.todo.getAll.useQuery(...)`), not from
component state, so no todo list appears here. -/
structure TodoListState where
  selectedStatus : SelectedStatus
deriving DecidableEq, Repr

/-- Initial state: `useState<TodoStatus | 'all'>('all')` (lines 72-74);
`Tabs.Root` likewise has `defaultValue="all"` (line 117). -/
def initialState : TodoListState := ⟨SelectedStatus.all⟩

/-- Events the component reacts to: the tab-selection callback
`onValueChange` (lines 118-120), a checkbox `onCheckedChange` (which calls
`handleStatusChange(todo.id, todo.status)`), a delete-button click (which
calls `handleDelete(todo.id)`), and the `onSuccess` callbacks of the two
mutations (lines 83-85 and 88-90). -/
inductive Event where
  | tabValueChange (value : SelectedStatus)
  | checkedChange (todoId : Int) (currentStatus : TodoStatus)
  | deleteClick (todoId : Int)
  | updateStatusSuccess
  | deleteSuccess
deriving DecidableEq, Repr

/-- Effects an event emits: a remote call through the api client, or the
refetch `apiContext.todo.getAll.refetch()` run on mutation success. -/
inductive Effect where
  | remote (c : RemoteCall)
  | refetchGetAll
deriving DecidableEq, Repr

/-- Step function of the component: the local state after an event and the
effects the event's handler issues, read off the handlers of TodoList.tsx. -/
def step (s : TodoListState) (e : Event) : TodoListState × List Effect :=
  match e with
  | Event.tabValueChange v => (⟨v⟩, [])
  | Event.checkedChange todoId currentStatus =>
      (s, [Effect.remote (handleStatusChange todoId currentStatus)])
  | Event.deleteClick todoId => (s, [Effect.remote (handleDelete todoId)])
  | Event.updateStatusSuccess => (s, [Effect.refetchGetAll])
  | Event.deleteSuccess => (s, [Effect.refetchGetAll])

/-- Remote endpoints of the api client the component binds. -/
inductive Endpoint where
  | todoGetAll
  | todoStatusUpdate
  | todoDelete
deriving DecidableEq, Repr

/-- Endpoint a remote call goes to. -/
def endpointOf : RemoteCall → Endpoint
  | RemoteCall.getAll _ => Endpoint.todoGetAll
  | RemoteCall.todoStatusUpdate _ _ => Endpoint.todoStatusUpdate
  | RemoteCall.todoDelete _ => Endpoint.todoDelete

/-- Endpoint an effect touches: the refetch re-runs `todo.getAll`. -/
def effectEndpoint : Effect → Endpoint
  | Effect.remote c => endpointOf c
  | Effect.refetchGetAll => Endpoint.todoGetAll

/-- Rendered representation of one `<li>` todo item: the todo's id and body,
the checkbox `checked` value, and the class-name tokens of the container
`<div>`, the `Checkbox.Root` and the `<label>`. -/
structure RenderedItem where
  todoId : Int
  body : String
  checkboxChecked : Bool
  containerTokens : List String
  checkboxTokens : List String
  labelTokens : List String
deriving DecidableEq, Repr

/-- Item markup of the `all` tab (lines 162-208). -/
def allTabItem (todo : Todo) : RenderedItem :=
  { todoId := todo.id
    body := todo.body
    checkboxChecked := decide (todo.status = TodoStatus.completed)
    containerTokens :=
      ["flex", "items-center", "rounded-12", "border", "border-gray-200",
       "px-4", "py-3", "shadow-sm"]
        ++ (if todo.status = TodoStatus.completed then ["bg"] else [])
    checkboxTokens :=
      ["flex", "h-6", "w-6", "items-center", "justify-center", "rounded-6",
       "border", "focus:outline-none"]
        ++ (if todo.status = TodoStatus.completed then ["bg-gray-700"] else ["bg-white"])
        ++ ["transition-colors", "duration-300"]
    labelTokens :=
      ["block", "pl-3", "font-medium"]
        ++ (if todo.status = TodoStatus.completed
            then ["text-gray-500", "line-through"] else []) }

/-- Item markup of the `pending` tab (lines 216-254). -/
def pendingTabItem (todo : Todo) : RenderedItem :=
  { todoId := todo.id
    body := todo.body
    checkboxChecked := decide (todo.status = TodoStatus.completed)
    containerTokens :=
      ["flex", "items-center", "rounded-12", "border", "border-gray-200",
       "px-4", "py-3", "shadow-sm"]
        ++ (if todo.status = TodoStatus.completed then ["bg-gray-700"] else [])
    checkboxTokens :=
      ["flex", "h-6", "w-6", "items-center", "justify-center", "rounded-6",
       "border", "border-gray-300", "focus:border-gray-700", "focus:outline-none",
       "data-[state=checked]:border-gray-700", "data-[state=checked]:bg-gray-700"]
    labelTokens :=
      ["block", "pl-3", "font-medium"]
        ++ (if todo.status = TodoStatus.completed
            then ["line-through-custom", "text-white"] else []) }

/-- Item markup of the `completed` tab (lines 263-303). -/
def completedTabItem (todo : Todo) : RenderedItem :=
  { todoId := todo.id
    body := todo.body
    checkboxChecked := decide (todo.status = TodoStatus.completed)
    containerTokens :=
      ["flex", "items-center", "rounded-12", "border", "border-gray-300",
       "px-4", "py-3", "shadow-sm"]
        ++ (if todo.status = TodoStatus.completed
            then ["text-gray-500", "line-through"] else [])
    checkboxTokens :=
      ["flex", "h-6", "w-6", "items-center", "justify-center", "rounded-6",
       "border", "border-gray-300", "focus:border-gray-700", "focus:outline-none",
       "data-[state=checked]:border-gray-700", "data-[state=checked]:bg-gray-700"]
    labelTokens :=
      ["block", "pl-3", "font-medium"]
        ++ (if todo.status = TodoStatus.completed
            then ["line-through-custom", "text-gray-500"] else []) }

/-- Content of `Tabs.Content value="all"` (lines 160-210): `todos.map(...)`. -/
def allTabContent (todos : List Todo) : List RenderedItem :=
  todos.map allTabItem

/-- Content of `Tabs.Content value="pending"` (lines 211-257):
`todos.filter((todo) => todo.status === 'pending').map(...)`. -/
def pendingTabContent (todos : List Todo) : List RenderedItem :=
  (todos.filter (fun todo => decide (todo.status = TodoStatus.pending))).map pendingTabItem

/-- Content of `Tabs.Content value="completed"` (lines 258-306):
`todos.filter((todo) => todo.status === 'completed').map(...)`. -/
def completedTabContent (todos : List Todo) : List RenderedItem :=
  (todos.filter (fun todo => decide (todo.status = TodoStatus.completed))).map completedTabItem

/-- Items displayed for a given selected filter: Radix `Tabs` shows the
`Tabs.Content` whose `value` equals the selected tab value. -/
def displayedItems (selectedStatus : SelectedStatus) (todos : List Todo) : List RenderedItem :=
  match selectedStatus with
  | SelectedStatus.all => allTabContent todos
  | SelectedStatus.status TodoStatus.pending => pendingTabContent todos
  | SelectedStatus.status TodoStatus.completed => completedTabContent todos

/-- Whether a class-token list carries strike-through styling: either the
Tailwind `line-through` class or the custom `line-through-custom` class. -/
def hasStrikeThrough (tokens : List String) : Bool :=
  tokens.contains "line-through" || tokens.contains "line-through-custom"

/-- C1: toggling completion sends the opposite status to the update call:
`handleStatusChange` invokes the update-status remote call with status
`completed` when `currentStatus` is `pending`, with `pending` when it is
`completed`, and the status sent is never equal to `currentStatus`. -/
theorem c1_handleStatusChange_sends_opposite (todoId : Int) (currentStatus : TodoStatus) :
    handleStatusChange todoId TodoStatus.pending
        = RemoteCall.todoStatusUpdate todoId TodoStatus.completed
    ∧ handleStatusChange todoId TodoStatus.completed
        = RemoteCall.todoStatusUpdate todoId TodoStatus.pending
    ∧ handleStatusChange todoId currentStatus
        ≠ RemoteCall.todoStatusUpdate todoId currentStatus := by
  refine ⟨rfl, rfl, ?_⟩
  cases currentStatus <;> simp [handleStatusChange]

/-- C2: the displayed todos are narrowed by the selected filter: with filter
`pending` exactly the fetched todos of status `pending` are rendered, with
`completed` exactly those of status `completed`, and with `all` every fetched
todo is rendered. -/
theorem c2_displayed_narrowed_by_filter (todos : List Todo) :
    (displayedItems SelectedStatus.all todos).map RenderedItem.todoId
        = todos.map Todo.id
    ∧ (displayedItems (SelectedStatus.status TodoStatus.pending) todos).map RenderedItem.todoId
        = (todos.filter (fun t => decide (t.status = TodoStatus.pending))).map Todo.id
    ∧ (displayedItems (SelectedStatus.status TodoStatus.completed) todos).map RenderedItem.todoId
        = (todos.filter (fun t => decide (t.status = TodoStatus.completed))).map Todo.id := by
  refine ⟨?_, ?_, ?_⟩ <;>
    simp [displayedItems, allTabContent, pendingTabContent, completedTabContent,
      allTabItem, pendingTabItem, completedTabItem, List.map_map, Function.comp]

/-- C3: for a displayed todo in any tab, the checkbox is checked iff the
todo's status is `completed`, and the label class tokens carry strike-through
styling iff the status is `completed`. -/
theorem c3_checkbox_and_strike_iff_completed (todo : Todo) :
    ((allTabItem todo).checkboxChecked = true ↔ todo.status = TodoStatus.completed)
    ∧ (hasStrikeThrough (allTabItem todo).labelTokens = true
        ↔ todo.status = TodoStatus.completed)
    ∧ ((pendingTabItem todo).checkboxChecked = true ↔ todo.status = TodoStatus.completed)
    ∧ (hasStrikeThrough (pendingTabItem todo).labelTokens = true
        ↔ todo.status = TodoStatus.completed)
    ∧ ((completedTabItem todo).checkboxChecked = true ↔ todo.status = TodoStatus.completed)
    ∧ (hasStrikeThrough (completedTabItem todo).labelTokens = true
        ↔ todo.status = TodoStatus.completed) := by
  obtain ⟨i, b, status⟩ := todo
  cases status <;>
    simp [allTabItem, pendingTabItem, completedTabItem, hasStrikeThrough]

/-- C4: the statuses argument of the fetch-all query is a function of the
selected filter: filter `all` requests `['completed', 'pending']`, and a
status filter requests exactly the one-element list of that status. -/
theorem c4_query_statuses_from_filter (s : TodoStatus) :
    queryStatuses SelectedStatus.all = [TodoStatus.completed, TodoStatus.pending]
    ∧ queryStatuses (SelectedStatus.status s) = [s] :=
  ⟨rfl, rfl⟩

/-- C5: the update-status and delete handlers never modify the local state
(which holds no todo list, only the selected filter); each emits exactly one
remote mutation carrying the clicked todo's id, and each mutation's success
callback emits exactly a refetch of `todo.getAll`. -/
theorem c5_handlers_issue_only_mutation_then_refetch
    (s : TodoListState) (todoId : Int) (currentStatus : TodoStatus) :
    (step s (Event.checkedChange todoId currentStatus)).1 = s
    ∧ (step s (Event.checkedChange todoId currentStatus)).2
        = [Effect.remote (RemoteCall.todoStatusUpdate todoId (flipStatus currentStatus))]
    ∧ (step s (Event.deleteClick todoId)).1 = s
    ∧ (step s (Event.deleteClick todoId)).2
        = [Effect.remote (RemoteCall.todoDelete todoId)]
    ∧ (step s Event.updateStatusSuccess).1 = s
    ∧ (step s Event.updateStatusSuccess).2 = [Effect.refetchGetAll]
    ∧ (step s Event.deleteSuccess).1 = s
    ∧ (step s Event.deleteSuccess).2 = [Effect.refetchGetAll] :=
  ⟨rfl, rfl, rfl, rfl, rfl, rfl, rfl, rfl⟩

/-- C6: the selected filter is local view-state with initial value `all`
(the state type holds nothing else, so nothing persists outside the
component); it changes only through the tab-selection callback, which sets it
to the selected value, and every other event leaves it unchanged. -/
theorem c6_selected_filter_local_initial_all
    (s : TodoListState) (v : SelectedStatus) (todoId : Int) (currentStatus : TodoStatus) :
    initialState.selectedStatus = SelectedStatus.all
    ∧ (step s (Event.tabValueChange v)).1.selectedStatus = v
    ∧ (step s (Event.checkedChange todoId currentStatus)).1.selectedStatus = s.selectedStatus
    ∧ (step s (Event.deleteClick todoId)).1.selectedStatus = s.selectedStatus
    ∧ (step s Event.updateStatusSuccess).1.selectedStatus = s.selectedStatus
    ∧ (step s Event.deleteSuccess).1.selectedStatus = s.selectedStatus :=
  ⟨rfl, rfl, rfl, rfl, rfl, rfl⟩

/-- C7: the component composes exactly three kinds of remote calls: the render
query goes to `todo.getAll`, and every effect emitted by any event handler
touches one of `todo.getAll`, `todoStatus.update`, `todo.delete`. -/
theorem c7_only_three_remote_endpoints (s : TodoListState) (e : Event) :
    endpointOf (renderQuery s.selectedStatus) = Endpoint.todoGetAll
    ∧ ∀ eff ∈ (step s e).2,
        effectEndpoint eff
          ∈ [Endpoint.todoGetAll, Endpoint.todoStatusUpdate, Endpoint.todoDelete] := by
  refine ⟨rfl, ?_⟩
  intro eff h
  cases e <;> simp [step] at h <;> subst h <;>
    simp [effectEndpoint, endpointOf, handleStatusChange, handleDelete]

/-- C8: in the `pending` tab content every rendered item has status `pending`,
so the completed-status branches there are unreachable: the checkbox is never
checked, the container never carries `bg-gray-700`, and the label never
carries the `line-through-custom` or `text-white` classes. -/
theorem c8_pending_tab_completed_branches_unreachable (todos : List Todo) :
    ∀ item ∈ pendingTabContent todos,
      item.checkboxChecked = false
      ∧ item.containerTokens.contains "bg-gray-700" = false
      ∧ hasStrikeThrough item.labelTokens = false
      ∧ item.labelTokens.contains "text-white" = false := by
  intro item h
  simp only [pendingTabContent, List.mem_map, List.mem_filter] at h
  obtain ⟨t, ⟨ht, hstatus⟩, rfl⟩ := h
  simp only [decide_eq_true_eq] at hstatus
  simp [pendingTabItem, hstatus, hasStrikeThrough]

/-- Witness for C8 at the concrete list holding one pending todo. -/
theorem c8_witness :
    (pendingTabItem ⟨1, "a", TodoStatus.pending⟩).checkboxChecked = false
    ∧ (pendingTabItem ⟨1, "a", TodoStatus.pending⟩).containerTokens.contains "bg-gray-700" = false
    ∧ hasStrikeThrough (pendingTabItem ⟨1, "a", TodoStatus.pending⟩).labelTokens = false
    ∧ (pendingTabItem ⟨1, "a", TodoStatus.pending⟩).labelTokens.contains "text-white" = false :=
  c8_pending_tab_completed_branches_unreachable [⟨1, "a", TodoStatus.pending⟩]
    (pendingTabItem ⟨1, "a", TodoStatus.pending⟩) (by decide)

/-- C9: the status flip of `handleStatusChange` is an involution on the status
enumeration: `handleStatusChange` sends `flipStatus currentStatus`, and
applying `flipStatus` twice yields the original status. -/
theorem c9_flip_involutive (todoId : Int) (s : TodoStatus) :
    handleStatusChange todoId s = RemoteCall.todoStatusUpdate todoId (flipStatus s)
    ∧ flipStatus (flipStatus s) = s := by
  cases s <;> exact ⟨rfl, rfl⟩

/-- C10: rendering preserves the server's order: for every fetched list and
every selected filter, the ids of the displayed items form a sublist (hence
appear in the same relative order) of the ids of the fetched list. -/
theorem c10_rendering_preserves_order (todos : List Todo) (f : SelectedStatus) :
    List.Sublist ((displayedItems f todos).map RenderedItem.todoId)
      (todos.map Todo.id) := by
  cases f with
  | all =>
      simp only [displayedItems, allTabContent, List.map_map]
      have h : (RenderedItem.todoId ∘ allTabItem) = Todo.id := funext fun t => rfl
      rw [h]
  | status st =>
      cases st with
      | pending =>
          simp only [displayedItems, pendingTabContent, List.map_map]
          have h : (RenderedItem.todoId ∘ pendingTabItem) = Todo.id := funext fun t => rfl
          rw [h]
          exact List.Sublist.map Todo.id (List.filter_sublist todos)
      | completed =>
          simp only [displayedItems, completedTabContent, List.map_map]
          have h : (RenderedItem.todoId ∘ completedTabItem) = Todo.id := funext fun t => rfl
          rw [h]
          exact List.Sublist.map Todo.id (List.filter_sublist todos)

end TodoApp
